import Mathlib

/-!
Verification of the execution-dispatch and cooperative-preemption core of
the Pyjion CPython patch: evaluator installation in `pylifecycle.c`
(`_Py_InitializeEx_Private`), and `_PyEval_PeriodicWork`, the `PULSE_GIL`
macro and `PyEval_EvalFrameEx` in `ceval.c`.

The embedding is shallow: each C routine becomes a Lean function over an
explicit state record.  Exception objects, thread-state pointers and error
codes are abstracted as natural numbers; `NULL` pointers are `Option.none`.
Cross-thread interference while the GIL is dropped is modelled by a
`GilEnv` record describing the globals observed after `take_gil` returns.
The order in which servicing steps run is recorded as a trace of events.
-/

namespace Pyjion

/-! ## Evaluator installation (`pylifecycle.c`)

The patch inserts, between creation of the first interpreter and creation
of the first thread state:

    HMODULE pyjit = LoadLibrary("pyjit.dll");
    if (pyjit != NULL) {
        interp->eval_frame = (EvalFrameFunction)GetProcAddress(pyjit, "EvalFrame");
        if (interp->eval_frame != NULL) {
            JitInitFunction jitinit = (JitInitFunction)GetProcAddress(pyjit, "JitInit");
            jitinit();
        }
    }

`DynEnv` records which dynamic-loading steps succeed: whether
`LoadLibrary("pyjit.dll")` returns a module, and whether each of the two
`GetProcAddress` lookups resolves. -/

/-- The value held by the interpreter's `eval_frame` function pointer:
the default built-in evaluator or the alternate one exported by the
loaded module.  `Option.none` at the `InterpI` level stands for `NULL`. -/
inductive EvalFrameRef
  | defaultEval
  | alternateEval
deriving DecidableEq, Repr

/-- Outcome of the host's dynamic-module mechanism for one startup:
does `LoadLibrary("pyjit.dll")` succeed, and which of the two entry
points does `GetProcAddress` resolve. -/
structure DynEnv where
  moduleLoads : Bool
  hasEvalFrame : Bool
  hasJitInit : Bool
deriving DecidableEq, Repr

/-- The slice of the interpreter instance the patch touches: the
`eval_frame` function pointer (`none` models `NULL`). -/
structure InterpI where
  eval_frame : Option EvalFrameRef
deriving DecidableEq, Repr

/-- A fatal outcome of the installation block.  `nullFunctionCall` models
invoking a `NULL` function pointer (`jitinit()` when `GetProcAddress`
returned `NULL`), which aborts or corrupts the process in C. -/
inductive InstallError
  | nullFunctionCall
deriving DecidableEq, Repr

/-- Result of a successful run of the installation block: the interpreter
state afterwards and how many times `jitinit()` was invoked. -/
structure InstallResult where
  interp : InterpI
  jitInitCalls : Nat
deriving DecidableEq, Repr

/-- The evaluator-installation block of `_Py_InitializeEx_Private`,
embedded line by line from the patch.  If `LoadLibrary` fails, nothing is
touched.  Otherwise `interp->eval_frame` is unconditionally overwritten
with the result of `GetProcAddress(pyjit, "EvalFrame")` (possibly `NULL`);
if that result is non-`NULL`, `jitinit` is looked up and invoked without
a `NULL` check, so a missing `JitInit` symbol is a `NULL` function call. -/
def installEvaluator (env : DynEnv) (interp : InterpI) :
    Except InstallError InstallResult :=
  if env.moduleLoads then
    let interp1 : InterpI :=
      { interp with
        eval_frame := if env.hasEvalFrame then some .alternateEval else none }
    if interp1.eval_frame.isSome then
      if env.hasJitInit then .ok ⟨interp1, 1⟩
      else .error .nullFunctionCall
    else .ok ⟨interp1, 0⟩
  else .ok ⟨interp, 0⟩

/-- Events of interpreter bring-up, at the granularity the claims need. -/
inductive InitEvent
  | createInterp
  | evaluatorInstall
  | jitInit
  | fatalNullCall
  | newThreadState
deriving DecidableEq, Repr

/-- The portion of `_Py_InitializeEx_Private` visible in the patch: the
first interpreter is created, the evaluator-installation block runs, and
then the first thread state is created.  Returns the event trace and the
resulting interpreter (`none` when the installation block crashed on a
`NULL` function call, in which case the thread state is never created).

Modelled from the spec: the initial value of `interp->eval_frame` is the
default built-in evaluator (its initialisation is outside the patch; the
spec states the resolved evaluator is "always the default built-in
evaluator unless `install` succeeded"). -/
def pyInitializeExPrivate (env : DynEnv) : List InitEvent × Option InterpI :=
  let interp0 : InterpI := ⟨some .defaultEval⟩
  match installEvaluator env interp0 with
  | .error _ => ([.createInterp, .evaluatorInstall, .fatalNullCall], none)
  | .ok r =>
      ([.createInterp, .evaluatorInstall] ++
         List.replicate r.jitInitCalls .jitInit ++ [.newThreadState],
       some r.interp)

/-! ## Periodic work and the GIL handshake (`ceval.c`) -/

/-- Outcome of one pending callable, abstracted: it either succeeds or
fails with an error value. -/
inductive PCall
  | ok
  | fails (e : Nat)
deriving DecidableEq, Repr

/-- The mutable state `_PyEval_PeriodicWork` and `PULSE_GIL` read and
write.  `current` is `_PyThreadState_Current` (the GIL holder's
thread-state pointer, `none` for `NULL`); `async_exc` is the `async_exc`
slot of the thread state that `PyThreadState_GET()` returns at entry;
`pending_async_exc` is the component bit of the attention flag cleared by
`UNSIGNAL_ASYNC_EXC`; `curErr` is the thread's error indicator as set by
`PyErr_SetNone`. -/
structure PwState where
  eval_breaker : Bool
  gil_drop_request : Bool
  pendingcalls_to_do : Bool
  pending_async_exc : Bool
  pending : List PCall
  current : Option Nat
  gilHeld : Bool
  finalizing : Option Nat
  async_exc : Option Nat
  curErr : Option Nat
deriving DecidableEq, Repr

/-- Modelled from the spec: the attention flag is the bit-or of
lock-release-requested, pending-calls-nonempty and
async-exception-signaled (`COMPUTE_EVAL_BREAKER`, not part of the
patch). -/
def computeEvalBreaker (s : PwState) : PwState :=
  { s with
    eval_breaker :=
      s.gil_drop_request || s.pendingcalls_to_do || s.pending_async_exc }

/-- Modelled from the spec: `UNSIGNAL_ASYNC_EXC` (not part of the patch)
clears the async-exception-signaled bit and recomputes the attention
flag. -/
def UNSIGNAL_ASYNC_EXC (s : PwState) : PwState :=
  computeEvalBreaker { s with pending_async_exc := false }

/-- FIFO drain of the pending-call queue: run each callable in order,
stop at the first failure, returning the failure (if any) and the
callables left unexecuted. -/
def drainList : List PCall → Option Nat × List PCall
  | [] => (none, [])
  | .ok :: rest => drainList rest
  | .fails e :: rest => (some e, rest)

/-- Modelled from the spec: `Py_MakePendingCalls` (not part of the patch)
drains the Pending Call Queue, invoking each callable in FIFO order; if a
callable signals failure it stops draining and reports that failure, with
the undrained remainder still queued; the pending-calls condition and the
attention flag are recomputed from what remains. -/
def Py_MakePendingCalls (s : PwState) : Option Nat × PwState :=
  match drainList s.pending with
  | (none, _) =>
      (none, computeEvalBreaker { s with pending := [], pendingcalls_to_do := false })
  | (some e, rest) =>
      (some e,
       computeEvalBreaker { s with pending := rest, pendingcalls_to_do := !rest.isEmpty })

/-- The pending-call step of `_PyEval_PeriodicWork`: drain only when the
`pendingcalls_to_do` flag is set. -/
def pendingPhase (s : PwState) : Option Nat × PwState :=
  if s.pendingcalls_to_do then Py_MakePendingCalls s else (none, s)

/-- What the rest of the system did while this thread had dropped the
GIL: the values of `_Py_Finalizing` and `_PyThreadState_Current` observed
once `take_gil` returns. -/
structure GilEnv where
  finalizingAfter : Option Nat
  currentAfter : Option Nat
deriving DecidableEq, Repr

/-- Outcome of the `PULSE_GIL` macro: a normal return, a fatal process
abort (`Py_FatalError`), or thread termination (`PyThread_exit_thread`). -/
inductive GilOutcome
  | normal (s : PwState)
  | fatal (msg : String)
  | exitThread (s : PwState)
deriving DecidableEq, Repr

/-- The `PULSE_GIL(tstate)` macro.  If no lock release was requested it is
a no-op.  Otherwise: `PyThreadState_Swap(NULL)` (which must return
`tstate`, else fatal "ceval: tstate mix-up"), `drop_gil`, other threads
run (the `env` values become visible), `take_gil`, the finalization
fast-exit check, then `PyThreadState_Swap(tstate)` (which must return
`NULL`, else fatal "ceval: orphan tstate").

`PyThreadState_Swap` is modelled from the spec by its interface: it
stores its argument into `_PyThreadState_Current` and returns the prior
value; `drop_gil`/`take_gil` release and reacquire the lock. -/
def PULSE_GIL (tstate : Option Nat) (env : GilEnv) (s : PwState) : GilOutcome :=
  if s.gil_drop_request then
    if s.current = tstate then
      let s1 : PwState := { s with current := none, gilHeld := false }
      let s2 : PwState :=
        { s1 with
          gilHeld := true,
          finalizing := env.finalizingAfter,
          current := env.currentAfter }
      if s2.finalizing.isSome ∧ s2.finalizing ≠ tstate then
        .exitThread { s2 with gilHeld := false }
      else
        if s2.current = none then .normal { s2 with current := tstate }
        else .fatal "ceval: orphan tstate"
    else .fatal "ceval: tstate mix-up"
  else .normal s

/-- Trace events of one `_PyEval_PeriodicWork` invocation: the pending
drain, the body of the GIL handshake, clearing the async-exception slot,
and handing the exception to the error indicator (`PyErr_SetNone`). -/
inductive Ev
  | pendingDrain
  | gilHandshake
  | clearSlot
  | setErr
deriving DecidableEq, Repr

/-- Outcome of `_PyEval_PeriodicWork`: `continue_` is the C return 0,
`mustAbort e` the C return 1 with error `e` propagating, `fatal` a
`Py_FatalError` inside the handshake, `exitThread` the finalization
fast-exit, and `undef` a `NULL` thread-state dereference (undefined
behaviour in C).  Each carries the resulting state and event trace. -/
inductive PwOutcome
  | continue_ (s : PwState) (tr : List Ev)
  | mustAbort (e : Nat) (s : PwState) (tr : List Ev)
  | fatal (msg : String) (tr : List Ev)
  | exitThread (s : PwState) (tr : List Ev)
  | undef (tr : List Ev)
deriving DecidableEq, Repr

/-- The event trace of an outcome. -/
def PwOutcome.trace : PwOutcome → List Ev
  | .continue_ _ tr => tr
  | .mustAbort _ _ tr => tr
  | .fatal _ tr => tr
  | .exitThread _ tr => tr
  | .undef tr => tr

/-- `PyErr_SetNone(exc)`: set the thread's error indicator to `exc`
(modelled from the spec as the ordinary error channel). -/
def PyErr_SetNone (exc : Nat) (s : PwState) : PwState :=
  { s with curErr := some exc }

/-- `_PyEval_PeriodicWork`, embedded from the patch:

    int _PyEval_PeriodicWork(void) {
        if (eval_breaker) {
            if (pendingcalls_to_do) {
                if (Py_MakePendingCalls() < 0) return 1;
            }
            PyThreadState* tstate = PyThreadState_GET();
            PULSE_GIL(tstate);
            if (tstate->async_exc != NULL) {
                PyObject *exc = tstate->async_exc;
                tstate->async_exc = NULL;
                UNSIGNAL_ASYNC_EXC();
                PyErr_SetNone(exc);
                Py_DECREF(exc);
                return 1;
            }
        }
        return 0;
    }

`PyThreadState_GET()` reads `current` after the pending drain; the value
read there is both what `PULSE_GIL` receives and what the async-exception
step dereferences. -/
def _PyEval_PeriodicWork (env : GilEnv) (s : PwState) : PwOutcome :=
  if s.eval_breaker then
    match pendingPhase s with
    | (some e, s1) => .mustAbort e s1 [Ev.pendingDrain]
    | (none, s1) =>
      let tr1 : List Ev := if s.pendingcalls_to_do then [Ev.pendingDrain] else []
      let trG : List Ev := if s1.gil_drop_request then [Ev.gilHandshake] else []
      match PULSE_GIL s1.current env s1 with
      | .fatal m => .fatal m (tr1 ++ trG)
      | .exitThread s2 => .exitThread s2 (tr1 ++ trG)
      | .normal s2 =>
        match s1.current with
        | none => .undef (tr1 ++ trG)
        | some _ =>
          match s2.async_exc with
          | some exc =>
              .mustAbort exc
                (PyErr_SetNone exc (UNSIGNAL_ASYNC_EXC { s2 with async_exc := none }))
                (tr1 ++ trG ++ [Ev.clearSlot, Ev.setErr])
          | none => .continue_ s2 (tr1 ++ trG)
  else .continue_ s []

/-! ## Frame-execution dispatch (`ceval.c`) -/

/-- The slice of the interpreter instance that frame dispatch uses: the
installed evaluator, as a function from a frame handle and throwflag to a
result handle (frames and results abstracted as naturals). -/
structure InterpD where
  eval_frame : Nat → Int → Nat

/-- The slice of a thread state that `PyEval_EvalFrameEx` uses: the
back-reference to its interpreter instance. -/
structure TStateD where
  interp : InterpD

/-- `PyEval_EvalFrameEx` after the patch: fetch the current thread state
and tail-call through the interpreter's installed `eval_frame` pointer. -/
def PyEval_EvalFrameEx (tstate : TStateD) (f : Nat) (throwflag : Int) : Nat :=
  tstate.interp.eval_frame f throwflag

/-! ## Auxiliary definitions and sample states -/

/-- Whether a `PULSE_GIL` outcome is a `Py_FatalError` process abort. -/
def GilOutcome.isFatal : GilOutcome → Bool
  | .fatal _ => true
  | _ => false

/-- A quiescent cross-thread environment: nothing finalizing, no current
thread state installed while the GIL was dropped. -/
def envNone : GilEnv := ⟨none, none⟩

/-- Sample state: attention flag set, only an async exception pending. -/
def sAsync : PwState :=
  { eval_breaker := true, gil_drop_request := false, pendingcalls_to_do := false,
    pending_async_exc := true, pending := [], current := some 1, gilHeld := true,
    finalizing := none, async_exc := some 7, curErr := none }

/-- The state after `sAsync` has its async exception delivered. -/
def sDelivered : PwState :=
  { eval_breaker := false, gil_drop_request := false, pendingcalls_to_do := false,
    pending_async_exc := false, pending := [], current := some 1, gilHeld := true,
    finalizing := none, async_exc := none, curErr := some 7 }

/-- Sample state: a queued pending call that fails. -/
def sPendingFail : PwState :=
  { eval_breaker := true, gil_drop_request := false, pendingcalls_to_do := true,
    pending_async_exc := false, pending := [PCall.ok, PCall.fails 5], current := some 1,
    gilHeld := true, finalizing := none, async_exc := none, curErr := none }

/-- Sample state: attention flag clear though conditions are pending. -/
def sIdle : PwState :=
  { eval_breaker := false, gil_drop_request := true, pendingcalls_to_do := true,
    pending_async_exc := true, pending := [PCall.fails 5], current := some 1,
    gilHeld := true, finalizing := none, async_exc := some 7, curErr := none }

/-- Sample state: a lock release has been requested of thread 1. -/
def sGilReq : PwState :=
  { eval_breaker := true, gil_drop_request := true, pendingcalls_to_do := false,
    pending_async_exc := false, pending := [], current := some 1, gilHeld := true,
    finalizing := none, async_exc := none, curErr := none }

end Pyjion

/-! ## Theorems -/

namespace Pyjion

/-- C1: the claim states that every outcome of evaluator installation
(module absent, module present but missing the evaluator entry point,
module present but missing the initialization entry point) completes
without aborting startup with the default evaluator still installed, the
alternate being installed only when both entry points resolve.  The code
refutes this: with `EvalFrame` present and `JitInit` absent, `jitinit` is
invoked without a `NULL` check (a fatal null function call), and with
`EvalFrame` absent the default evaluator is overwritten with `NULL`
rather than left installed. -/
theorem installEvaluator_not_fallback_bug :
    installEvaluator ⟨true, true, false⟩ ⟨some .defaultEval⟩ =
        .error .nullFunctionCall ∧
      installEvaluator ⟨true, false, true⟩ ⟨some .defaultEval⟩ =
        .ok ⟨⟨none⟩, 0⟩ :=
  ⟨rfl, rfl⟩

/-- C2: in every invocation of `_PyEval_PeriodicWork`, the servicing
steps occur in the fixed order pending-call draining, then the GIL
handshake, then async-exception delivery (slot clearing followed by the
exception hand-off): the emitted event trace is always a subsequence of
that canonical order, so no step ever precedes an earlier one. -/
theorem periodicWork_order_of_steps (env : GilEnv) (s : PwState) :
    List.Sublist (PwOutcome.trace (_PyEval_PeriodicWork env s))
      [Ev.pendingDrain, Ev.gilHandshake, Ev.clearSlot, Ev.setErr] := by
  by_cases hE : s.eval_breaker = true
  case neg => simp [_PyEval_PeriodicWork, hE, PwOutcome.trace]
  rcases hp : pendingPhase s with ⟨r, s1⟩
  have key0 : List.Sublist
      ((if s.pendingcalls_to_do = true then [Ev.pendingDrain] else []) ++
        (if s1.gil_drop_request = true then [Ev.gilHandshake] else []))
      [Ev.pendingDrain, Ev.gilHandshake, Ev.clearSlot, Ev.setErr] := by
    cases hb : s.pendingcalls_to_do <;> cases hc : s1.gil_drop_request <;> decide
  have key2 : List.Sublist
      ((if s.pendingcalls_to_do = true then [Ev.pendingDrain] else []) ++
        ((if s1.gil_drop_request = true then [Ev.gilHandshake] else []) ++
          [Ev.clearSlot, Ev.setErr]))
      [Ev.pendingDrain, Ev.gilHandshake, Ev.clearSlot, Ev.setErr] := by
    cases hb : s.pendingcalls_to_do <;> cases hc : s1.gil_drop_request <;> decide
  cases r with
  | some e =>
    simp only [_PyEval_PeriodicWork, hE, if_true, hp, PwOutcome.trace]
    decide
  | none =>
    rcases hc : s1.current with _ | t
    · rcases hg : PULSE_GIL none env s1 with s2 | m | s2 <;>
        simp [_PyEval_PeriodicWork, hE, hp, hc, hg, PwOutcome.trace] <;>
        exact key0
    · rcases hg : PULSE_GIL (some t) env s1 with s2 | m | s2
      · rcases ha : s2.async_exc with _ | exc
        · simp [_PyEval_PeriodicWork, hE, hp, hc, hg, ha, PwOutcome.trace]
          exact key0
        · simp [_PyEval_PeriodicWork, hE, hp, hc, hg, ha, PwOutcome.trace]
          exact key2
      · simp [_PyEval_PeriodicWork, hE, hp, hc, hg, PwOutcome.trace]
        exact key0
      · simp [_PyEval_PeriodicWork, hE, hp, hc, hg, PwOutcome.trace]
        exact key0

/-- C3: whenever `_PyEval_PeriodicWork` reaches the async-exception step
(attention flag set, pending drain succeeded, GIL handshake returned
normally) with a non-empty async-exception slot, it returns `mustAbort`
carrying exactly that exception, the slot is cleared before the exception
is handed to the error indicator (the `clearSlot` event precedes `setErr`
in the trace), and the slot is empty in the resulting state. -/
theorem periodicWork_delivers_async_exc (env : GilEnv) (s s1 s2 : PwState) (t exc : Nat)
    (hE : s.eval_breaker = true)
    (hp : pendingPhase s = (none, s1))
    (hc : s1.current = some t)
    (hg : PULSE_GIL s1.current env s1 = .normal s2)
    (ha : s2.async_exc = some exc) :
    ∃ s3 tr, _PyEval_PeriodicWork env s = .mustAbort exc s3 tr ∧
      List.Sublist [Ev.clearSlot, Ev.setErr] tr ∧ s3.async_exc = none := by
  rw [hc] at hg
  refine ⟨PyErr_SetNone exc (UNSIGNAL_ASYNC_EXC { s2 with async_exc := none }),
      (if s.pendingcalls_to_do = true then [Ev.pendingDrain] else []) ++
        ((if s1.gil_drop_request = true then [Ev.gilHandshake] else []) ++
          [Ev.clearSlot, Ev.setErr]), ?_, ?_, ?_⟩
  · simp [_PyEval_PeriodicWork, hE, hp, hc, hg, ha]
  · exact (List.sublist_append_right _ _).trans (List.sublist_append_right _ _)
  · simp [PyErr_SetNone, UNSIGNAL_ASYNC_EXC, computeEvalBreaker]

/-- C4: a thread that performs the GIL handshake body and on reacquiring
the lock observes a finalization marker naming a different thread drops
the lock again and terminates (the outcome is `exitThread`, never a
normal return): the final state has the lock released and the thread
never swaps itself back in as the current thread state. -/
theorem PULSE_GIL_finalization_exit (t f : Nat) (env : GilEnv) (s : PwState)
    (hreq : s.gil_drop_request = true)
    (hcur : s.current = some t)
    (hfin : env.finalizingAfter = some f)
    (hne : f ≠ t) :
    ∃ s1, PULSE_GIL (some t) env s = .exitThread s1 ∧
      s1.gilHeld = false ∧ s1.current = env.currentAfter := by
  use { s with current := env.currentAfter, gilHeld := false, finalizing := env.finalizingAfter }
  refine ⟨?_, rfl, rfl⟩
  simp [PULSE_GIL, hreq, hcur, hfin, hne]

/-- C5: when the attention flag is set, pending calls are queued and the
drain reports a failing callable, `_PyEval_PeriodicWork` returns
`mustAbort` with exactly that failure, its trace holds only the
pending-drain event (so neither the GIL handshake nor async-exception
delivery ran), and every handshake- or exception-related state component
is left untouched. -/
theorem periodicWork_pending_failure_stops (env : GilEnv) (s : PwState)
    (e : Nat) (rest : List PCall)
    (hE : s.eval_breaker = true)
    (hp : s.pendingcalls_to_do = true)
    (hd : drainList s.pending = (some e, rest)) :
    ∃ s1, _PyEval_PeriodicWork env s = .mustAbort e s1 [Ev.pendingDrain] ∧
      s1.gil_drop_request = s.gil_drop_request ∧ s1.current = s.current ∧
      s1.gilHeld = s.gilHeld ∧ s1.finalizing = s.finalizing ∧
      s1.async_exc = s.async_exc ∧ s1.curErr = s.curErr := by
  refine ⟨computeEvalBreaker
    { s with pending := rest, pendingcalls_to_do := !rest.isEmpty }, ?_, ?_, ?_, ?_, ?_, ?_, ?_⟩ <;>
    simp [_PyEval_PeriodicWork, pendingPhase, Py_MakePendingCalls, computeEvalBreaker, hE, hp, hd]

/-- C6: when the attention flag reads false, `_PyEval_PeriodicWork`
returns `continue` immediately with an empty trace and a completely
unchanged state: no pending-call drain, no GIL handshake, no touch of
the async-exception slot. -/
theorem periodicWork_fast_path_noop (env : GilEnv) (s : PwState)
    (h : s.eval_breaker = false) :
    _PyEval_PeriodicWork env s = .continue_ s [] := by
  simp [_PyEval_PeriodicWork, h]

/-- C7: `PyEval_EvalFrameEx` dispatches every frame execution through the
interpreter instance's installed `eval_frame` reference, and whenever the
installed reference is (any) default evaluator function, its behaviour on
every frame and throwflag is identical to calling that function
directly. -/
theorem PyEval_EvalFrameEx_dispatch (ts : TStateD) (f : Nat) (t : Int) :
    PyEval_EvalFrameEx ts f t = ts.interp.eval_frame f t ∧
      ∀ d : Nat → Int → Nat, ts.interp.eval_frame = d →
        PyEval_EvalFrameEx ts f t = d f t :=
  ⟨rfl, fun _ hd => hd ▸ rfl⟩

/-- C8: in every bring-up the evaluator-installation step occurs exactly
once, strictly before the first thread state is created; and when the
module loads and both entry points resolve, the initialization callback
runs exactly once, synchronously during installation, before the thread
state exists. -/
theorem evaluator_install_once_before_tstate (env : DynEnv) :
    ((pyInitializeExPrivate env).1.count .evaluatorInstall = 1) ∧
    (InitEvent.newThreadState ∈ (pyInitializeExPrivate env).1 →
      (pyInitializeExPrivate env).1.indexOf .evaluatorInstall <
        (pyInitializeExPrivate env).1.indexOf .newThreadState) ∧
    (env.moduleLoads = true → env.hasEvalFrame = true → env.hasJitInit = true →
      (pyInitializeExPrivate env).1.count .jitInit = 1 ∧
      (pyInitializeExPrivate env).1.indexOf .jitInit <
        (pyInitializeExPrivate env).1.indexOf .newThreadState) := by
  rcases env with ⟨m, e, j⟩
  cases m <;> cases e <;> cases j <;> decide

/-- C9: whenever `_PyEval_PeriodicWork` delivers an async exception (its
abort trace holds the slot-clearing event), the resulting state has the
async-exception-signaled bit of the attention flag cleared
(`UNSIGNAL_ASYNC_EXC` ran in the same invocation). -/
theorem async_delivery_clears_signal_bit (env : GilEnv) (s s' : PwState)
    (e : Nat) (tr : List Ev)
    (h : _PyEval_PeriodicWork env s = .mustAbort e s' tr)
    (htr : Ev.clearSlot ∈ tr) :
    s'.pending_async_exc = false := by
  by_cases hE : s.eval_breaker = true
  · rcases hp : pendingPhase s with ⟨r, s1⟩
    cases r with
    | some e0 =>
      simp [_PyEval_PeriodicWork, hE, hp] at h
      obtain ⟨-, -, rfl⟩ := h
      simp at htr
    | none =>
      rcases hc : s1.current with _ | t
      · rcases hg : PULSE_GIL none env s1 with s2 | m | s2 <;>
          simp [_PyEval_PeriodicWork, hE, hp, hc, hg] at h
      · rcases hg : PULSE_GIL (some t) env s1 with s2 | m | s2
        · rcases ha : s2.async_exc with _ | exc
          · simp [_PyEval_PeriodicWork, hE, hp, hc, hg, ha] at h
          · simp [_PyEval_PeriodicWork, hE, hp, hc, hg, ha] at h
            obtain ⟨-, hs, -⟩ := h
            rw [← hs]
            simp [PyErr_SetNone, UNSIGNAL_ASYNC_EXC, computeEvalBreaker]
        · simp [_PyEval_PeriodicWork, hE, hp, hc, hg] at h
        · simp [_PyEval_PeriodicWork, hE, hp, hc, hg] at h
  · simp [_PyEval_PeriodicWork, hE] at h

/-- C10: under the precondition that the executing thread's thread-state
pointer is the one it passes (the current thread state equals `tstate` on
entry) and no other thread installs a current thread state for it while
the lock is dropped, neither fatal-error branch of the handshake
("ceval: tstate mix-up", "ceval: orphan tstate") is reachable: the
handshake never aborts the process. -/
theorem PULSE_GIL_no_fatal_when_owner (t : Nat) (env : GilEnv) (s : PwState)
    (hcur : s.current = some t)
    (hafter : env.currentAfter = none) :
    (PULSE_GIL (some t) env s).isFatal = false := by
  by_cases hreq : s.gil_drop_request = true
  · simp only [PULSE_GIL, hreq, if_true, hcur]
    split
    · simp [GilOutcome.isFatal]
    · simp [GilOutcome.isFatal, hafter]
  · simp [PULSE_GIL, hreq, GilOutcome.isFatal]

/-- C3 witness: on a concrete state with the attention flag set and an
async exception 7 queued for thread 1, the periodic work aborts with
exception 7, the clear precedes the hand-off, and the slot ends empty. -/
theorem periodicWork_delivers_async_exc_witness :
    ∃ s3 tr, _PyEval_PeriodicWork envNone sAsync = .mustAbort 7 s3 tr ∧
      List.Sublist [Ev.clearSlot, Ev.setErr] tr ∧ s3.async_exc = none :=
  periodicWork_delivers_async_exc envNone sAsync sAsync sAsync 1 7 rfl rfl rfl rfl rfl

/-- C4 witness: thread 1 performs the handshake while thread 9 finalizes,
and terminates with the lock released. -/
theorem PULSE_GIL_finalization_exit_witness :
    ∃ s1, PULSE_GIL (some 1) ⟨some 9, none⟩ sGilReq = .exitThread s1 ∧
      s1.gilHeld = false ∧ s1.current = (⟨some 9, none⟩ : GilEnv).currentAfter :=
  PULSE_GIL_finalization_exit 1 9 ⟨some 9, none⟩ sGilReq rfl rfl rfl (by decide)

/-- C5 witness: a concrete queue whose second callable fails with 5 makes
the periodic work abort with 5, leaving handshake and exception state
untouched. -/
theorem periodicWork_pending_failure_stops_witness :
    ∃ s1, _PyEval_PeriodicWork envNone sPendingFail = .mustAbort 5 s1 [Ev.pendingDrain] ∧
      s1.gil_drop_request = sPendingFail.gil_drop_request ∧
      s1.current = sPendingFail.current ∧
      s1.gilHeld = sPendingFail.gilHeld ∧
      s1.finalizing = sPendingFail.finalizing ∧
      s1.async_exc = sPendingFail.async_exc ∧
      s1.curErr = sPendingFail.curErr :=
  periodicWork_pending_failure_stops envNone sPendingFail 5 [] rfl rfl rfl

/-- C6 witness: with the attention flag clear the periodic work is an
immediate no-op on a concrete state. -/
theorem periodicWork_fast_path_noop_witness :
    _PyEval_PeriodicWork envNone sIdle = .continue_ sIdle [] :=
  periodicWork_fast_path_noop envNone sIdle rfl

/-- C7 witness: with a concrete evaluator installed, executing frame 5
through `PyEval_EvalFrameEx` equals calling that evaluator directly. -/
theorem PyEval_EvalFrameEx_dispatch_witness :
    PyEval_EvalFrameEx ⟨⟨fun f _ => f + 1⟩⟩ 5 0 = (fun (f : Nat) (_ : Int) => f + 1) 5 0 :=
  (PyEval_EvalFrameEx_dispatch ⟨⟨fun f _ => f + 1⟩⟩ 5 0).2 _ rfl

/-- C8 witness: with the module and both entry points present, bring-up
installs once before the thread state and calls the initialization
callback exactly once, before the thread state. -/
theorem evaluator_install_once_before_tstate_witness :
    ((pyInitializeExPrivate ⟨true, true, true⟩).1.count .evaluatorInstall = 1) ∧
    ((pyInitializeExPrivate ⟨true, true, true⟩).1.indexOf .evaluatorInstall <
      (pyInitializeExPrivate ⟨true, true, true⟩).1.indexOf .newThreadState) ∧
    ((pyInitializeExPrivate ⟨true, true, true⟩).1.count .jitInit = 1) ∧
    ((pyInitializeExPrivate ⟨true, true, true⟩).1.indexOf .jitInit <
      (pyInitializeExPrivate ⟨true, true, true⟩).1.indexOf .newThreadState) :=
  ⟨(evaluator_install_once_before_tstate ⟨true, true, true⟩).1,
   (evaluator_install_once_before_tstate ⟨true, true, true⟩).2.1 (by decide),
   ((evaluator_install_once_before_tstate ⟨true, true, true⟩).2.2 rfl rfl rfl).1,
   ((evaluator_install_once_before_tstate ⟨true, true, true⟩).2.2 rfl rfl rfl).2⟩

/-- C9 witness: the concrete delivery of exception 7 leaves the
async-exception-signaled bit cleared. -/
theorem async_delivery_clears_signal_bit_witness :
    sDelivered.pending_async_exc = false :=
  async_delivery_clears_signal_bit envNone sAsync sDelivered 7
    [Ev.clearSlot, Ev.setErr] (by decide) (by decide)

/-- C10 witness: thread 1, owning its thread state with no interference,
completes a requested handshake without any fatal error. -/
theorem PULSE_GIL_no_fatal_when_owner_witness :
    (PULSE_GIL (some 1) envNone sGilReq).isFatal = false :=
  PULSE_GIL_no_fatal_when_owner 1 envNone sGilReq rfl rfl

end Pyjion
